import Mathlib

/-!
A shallow embedding of the electricity-grid fault-detection engine
(buses, transmission lines, Y-bus assembly, Newton-Raphson power flow,
symmetrical-component fault models, fault simulator, graph-based
detector), together with theorems checking the design document's
statements against the embedded code.

Real-valued quantities of the source (Python floats) are modelled as
real numbers; complex values as Mathlib's complex numbers; Python dicts
as association lists whose update replaces in place and whose lookup
takes the first matching key.
-/

namespace GridSim

/-- Numerical guard threshold used throughout the source, 1e-10. -/
noncomputable def tiny : ℝ := 1 / 10 ^ 10

/-- Newton-Raphson convergence tolerance, 1e-6 (the solver default). -/
noncomputable def tol : ℝ := 1 / 10 ^ 6

/-- Bus role tags from config.BusType. -/
inductive BusType where
  | slack
  | pv
  | pq
deriving DecidableEq

/-- Fault kind tags from faults.types.FaultType. -/
inductive FaultType where
  | slg
  | ll
  | dlg
  | lll
  | opn
deriving DecidableEq

/-- Where a fault sits, from the Fault dataclass's location_type field. -/
inductive LocKind where
  | bus
  | line
deriving DecidableEq

/-! ## Association-list model of Python dicts -/

/-- Lookup of a key in a dict modelled as an association list (first
match; the dicts of the source hold each key once). -/
def dget {α : Type} : List (ℕ × α) → ℕ → Option α
  | [], _ => none
  | p :: d, k => if p.1 = k then some p.2 else dget d k

/-- Dict assignment: replace the value in place when the key is present,
append a new entry otherwise (Python dict semantics). -/
def dictSet {α : Type} (d : List (ℕ × α)) (k : ℕ) (v : α) : List (ℕ × α) :=
  if d.any fun p => p.1 == k then
    d.map fun p => if p.1 = k then (k, v) else p
  else d ++ [(k, v)]

/-! ## Fault models (faults/models.py) -/

/-- Fortescue operator a = e^(j 2 pi / 3) used by sequence_to_phase. -/
noncomputable def fortA : ℂ := Complex.exp (Complex.I * ((2 * Real.pi / 3 : ℝ) : ℂ))

/-- FaultModel.sequence_to_phase: phase currents (Ia, Ib, Ic) from
sequence currents (I0, I1, I2). -/
noncomputable def seqToPhase (i0 i1 i2 : ℂ) : ℂ × ℂ × ℂ :=
  let a := fortA
  let a2 := a * a
  (i0 + i1 + i2, i0 + a2 * i1 + a * i2, i0 + a * i1 + a2 * i2)

/-- The guard pattern shared by the fault models: a denominator whose
magnitude is below 1e-10 is replaced by the real number 1e-10. -/
noncomputable def guardZ (z : ℂ) : ℂ :=
  if Complex.abs z < tiny then ((tiny : ℝ) : ℂ) else z

/-- SLGFault.calculate_fault_current. -/
noncomputable def slgCalc (v_f z0 z1 z2 : ℂ) (z_f : ℝ) : ℂ × ℂ × ℂ :=
  let zt := guardZ (z0 + z1 + z2 + 3 * (z_f : ℂ))
  (v_f / zt, v_f / zt, v_f / zt)

/-- LLFault.calculate_fault_current. -/
noncomputable def llCalc (v_f z0 z1 z2 : ℂ) (z_f : ℝ) : ℂ × ℂ × ℂ :=
  let zt := guardZ (z1 + z2 + (z_f : ℂ))
  let i1 := v_f / zt
  (0, i1, -i1)

/-- DLGFault.calculate_fault_current. -/
noncomputable def dlgCalc (v_f z0 z1 z2 : ℂ) (z_f : ℝ) : ℂ × ℂ × ℂ :=
  let z0w := z0 + 3 * (z_f : ℂ)
  let zp : ℂ := if Complex.abs (z0w + z2) < tiny then 0 else z0w * z2 / (z0w + z2)
  let zt := guardZ (z1 + zp)
  let i1 := v_f / zt
  if Complex.abs (z0w + z2) < tiny then (i1 / 2, i1, i1 / 2)
  else (-i1 * z2 / (z0w + z2), i1, -i1 * z0w / (z0w + z2))

/-- ThreePhaseFault.calculate_fault_current. -/
noncomputable def lllCalc (v_f z0 z1 z2 : ℂ) (z_f : ℝ) : ℂ × ℂ × ℂ :=
  let zt := guardZ (z1 + (z_f : ℂ))
  (0, v_f / zt, 0)

/-- OpenCircuitFault.calculate_fault_current. -/
noncomputable def openCalc (v_f z0 z1 z2 : ℂ) (z_f : ℝ) : ℂ × ℂ × ℂ :=
  (0, 0, 0)

/-- get_fault_model dispatch (total over the closed set of kinds). -/
noncomputable def getFaultModel (ft : FaultType) : ℂ → ℂ → ℂ → ℂ → ℝ → ℂ × ℂ × ℂ :=
  match ft with
  | .slg => slgCalc
  | .ll => llCalc
  | .dlg => dlgCalc
  | .lll => lllCalc
  | .opn => openCalc

/-! ## Data model (grid/bus.py, grid/line.py) -/

/-- A bus (substation node).  Fields follow Bus.__init__; the display
name, nominal kV and the 2-D drawing position are omitted (no claim
reads them). -/
structure Bus where
  id : ℕ
  busType : BusType
  voltage_pu : ℝ
  angle_deg : ℝ
  p_gen : ℝ
  q_gen : ℝ
  p_load : ℝ
  q_load : ℝ
  is_faulted : Bool
  fault_type : Option FaultType

/-- Bus.p_net: net active power injection (generation minus load). -/
def pNet (b : Bus) : ℝ := b.p_gen - b.p_load

/-- Bus.q_net. -/
def qNet (b : Bus) : ℝ := b.q_gen - b.q_load

/-- Bus.voltage_complex: magnitude times e^(j angle), with the stored
angle in degrees converted by np.radians. -/
noncomputable def voltageComplex (b : Bus) : ℂ :=
  (b.voltage_pu : ℂ) * Complex.exp (Complex.I * ((b.angle_deg * Real.pi / 180 : ℝ) : ℂ))

/-- Bus.apply_fault. -/
def busApplyFault (b : Bus) (ft : FaultType) : Bus :=
  { b with is_faulted := true, fault_type := some ft }

/-- Bus.clear_fault. -/
def busClearFault (b : Bus) : Bus :=
  { b with is_faulted := false, fault_type := none }

/-- A transmission line.  Fields follow TransmissionLine.__init__ after
the per-km parameters have been folded into the stored per-unit values;
from_bus and to_bus are kept as the referenced bus keys. -/
structure Line where
  id : ℕ
  fromBusId : ℕ
  toBusId : ℕ
  length_km : ℝ
  r_pu : ℝ
  x_pu : ℝ
  b_pu : ℝ
  r0_pu : ℝ
  x0_pu : ℝ
  rating_mva : ℝ
  is_closed : Bool
  is_faulted : Bool
  fault_type : Option FaultType
  fault_location : ℝ
  current_pu : ℝ
  power_flow_mw : ℝ
  loading_percent : ℝ

/-- TransmissionLine.z_pu: series impedance r + j x in per-unit. -/
def z_pu (l : Line) : ℂ := ⟨l.r_pu, l.x_pu⟩

/-- TransmissionLine.y_pu: series admittance, zero-guarded. -/
noncomputable def y_pu (l : Line) : ℂ :=
  if tiny < Complex.abs (z_pu l) then 1 / z_pu l else 0

/-- TransmissionLine.z0_pu: zero-sequence series impedance. -/
def z0_pu (l : Line) : ℂ := ⟨l.r0_pu, l.x0_pu⟩

/-- TransmissionLine.get_impedance_to_point: clamp the fraction to
[0, 1], then scale the series impedance. -/
noncomputable def getImpedanceToPoint (l : Line) (d : ℝ) : ℂ :=
  z_pu l * ((max 0 (min 1 d) : ℝ) : ℂ)

/-- TransmissionLine.open_line. -/
def openLine (l : Line) : Line := { l with is_closed := false }

/-- TransmissionLine.close_line: closes the breaker and also resets the
fault flag and fault kind. -/
def closeLine (l : Line) : Line :=
  { l with is_closed := true, is_faulted := false, fault_type := none }

/-- TransmissionLine.apply_fault. -/
def applyFault (l : Line) (ft : FaultType) (loc : ℝ) : Line :=
  { l with is_faulted := true, fault_type := some ft,
           fault_location := max 0 (min 1 loc) }

/-- TransmissionLine.clear_fault. -/
def lineClearFault (l : Line) : Line :=
  { l with is_faulted := false, fault_type := none }

/-- TransmissionLine.update_loading. -/
noncomputable def updateLoading (l : Line) (c p : ℝ) : Line :=
  { l with current_pu := c, power_flow_mw := p,
           loading_percent := if 0 < l.rating_mva then |p| / l.rating_mva * 100 else 0 }

/-! ## Network model (grid/network.py) -/

/-- The grid: a bus dict, a line dict, the adjacency index and the
cached Y-bus with its validity flag.  The cached matrix is modelled as
a total function on matrix indices (entries at or beyond the bus count
are zero and never read). -/
structure Grid where
  buses : List (ℕ × Bus)
  lines : List (ℕ × Line)
  adjacency : List (ℕ × List ℕ)
  yBusValid : Bool
  yBusCache : Option (ℕ → ℕ → ℂ)

/-- Grid.__init__ with empty maps. -/
def emptyGrid : Grid :=
  { buses := [], lines := [], adjacency := [], yBusValid := false, yBusCache := none }

/-- Grid.add_bus: insert the bus, give it an empty adjacency list and
invalidate the cached matrix. -/
def addBus (g : Grid) (b : Bus) : Grid :=
  { g with buses := dictSet g.buses b.id b,
           adjacency := dictSet g.adjacency b.id [],
           yBusValid := false }

/-- Grid.add_line, with the KeyError a missing endpoint raises modelled
as Except.error carrying the state as already mutated at the raise
point: the line has been inserted into the line dict first, and when
only the to-bus is missing the from-bus adjacency has been extended. -/
def addLine (g : Grid) (l : Line) : Except Grid Grid :=
  let g1 : Grid := { g with lines := dictSet g.lines l.id l }
  match dget g1.adjacency l.fromBusId with
  | none => .error g1
  | some adjF =>
    let g2 : Grid :=
      if l.toBusId ∈ adjF then g1
      else { g1 with adjacency := dictSet g1.adjacency l.fromBusId (adjF ++ [l.toBusId]) }
    match dget g2.adjacency l.toBusId with
    | none => .error g2
    | some adjT =>
      let g3 : Grid :=
        if l.fromBusId ∈ adjT then g2
        else { g2 with adjacency := dictSet g2.adjacency l.toBusId (adjT ++ [l.fromBusId]) }
      .ok { g3 with yBusValid := false }

/-- Grid.get_line. -/
def getLine (g : Grid) (k : ℕ) : Option Line := dget g.lines k

/-- Grid.get_bus. -/
def getBus (g : Grid) (k : ℕ) : Option Bus := dget g.buses k

/-- Mutation of the shared line object found under a key, as a grid
update (Python mutates the object in place; the dict keeps it). -/
def modifyLine (g : Grid) (k : ℕ) (f : Line → Line) : Grid :=
  { g with lines := g.lines.map fun p => if p.1 = k then (p.1, f p.2) else p }

/-- The bus keys in dict order. -/
def busKeys (g : Grid) : List ℕ := g.buses.map Prod.fst

/-- Grid.n_buses. -/
def nBuses (g : Grid) : ℕ := g.buses.length

/-- The canonical bus ordering: bus keys sorted ascending. -/
def sortedBusIds (g : Grid) : List ℕ := List.insertionSort (· ≤ ·) (busKeys g)

/-- bus_id_to_idx: the matrix index of a bus key under the canonical
ordering. -/
def busIdx (g : Grid) (k : ℕ) : ℕ := (sortedBusIds g).indexOf k

/-- Pointwise accumulation into one matrix entry (the += / -= updates
of the assembly loops). -/
def addAt (M : ℕ → ℕ → ℂ) (a b : ℕ) (v : ℂ) : ℕ → ℕ → ℂ :=
  fun p q => if p = a ∧ q = b then M p q + v else M p q

/-- One line's pass of the positive-sequence Y-bus assembly loop: open
lines are skipped, a closed line subtracts its series admittance from
the two off-diagonal entries and adds the series admittance plus half
the shunt susceptance to the two diagonal entries. -/
noncomputable def yBusStep (g : Grid) (M : ℕ → ℕ → ℂ) (l : Line) : ℕ → ℕ → ℂ :=
  if l.is_closed then
    let i := busIdx g l.fromBusId
    let j := busIdx g l.toBusId
    let ys := y_pu l
    let ysh : ℂ := ⟨0, l.b_pu / 2⟩
    addAt (addAt (addAt (addAt M i j (-ys)) j i (-ys)) i i (ys + ysh)) j j (ys + ysh)
  else M

/-- The Y-bus assembly loop of Grid.build_y_bus over the line dict. -/
noncomputable def computeYBus (g : Grid) : ℕ → ℕ → ℂ :=
  (g.lines.map Prod.snd).foldl (yBusStep g) fun _ _ => 0

/-- Grid.build_y_bus: return the cache when it is valid and present,
otherwise assemble, store and mark valid. -/
noncomputable def buildYBus (g : Grid) : Grid × (ℕ → ℕ → ℂ) :=
  match g.yBusValid, g.yBusCache with
  | true, some m => (g, m)
  | _, _ =>
    let m := computeYBus g
    ({ g with yBusCache := some m, yBusValid := true }, m)

/-- Grid.clear_all_faults: clear fault flags on every bus and line and
re-close open lines; the cache flag is left untouched (as in the
source). -/
def clearAllFaults (g : Grid) : Grid :=
  { g with
    buses := g.buses.map fun p => (p.1, busClearFault p.2),
    lines := g.lines.map fun p =>
      (p.1,
        let l1 := lineClearFault p.2
        if l1.is_closed then l1 else closeLine l1) }

/-- Grid.invalidate_matrices. -/
def invalidateMatrices (g : Grid) : Grid := { g with yBusValid := false }

/-- The closed lines of the grid, in dict order. -/
def closedLines (g : Grid) : List Line :=
  (g.lines.map Prod.snd).filter fun l => l.is_closed

/-- One closed line's Y-bus contribution as the specification words it:
minus the series admittance at the two off-diagonal entries, the series
admittance plus j b/2 at the two diagonal entries. -/
noncomputable def lineContrib (g : Grid) (l : Line) (p q : ℕ) : ℂ :=
  (if p = busIdx g l.fromBusId ∧ q = busIdx g l.toBusId then -(y_pu l) else 0) +
  (if p = busIdx g l.toBusId ∧ q = busIdx g l.fromBusId then -(y_pu l) else 0) +
  (if p = busIdx g l.fromBusId ∧ q = busIdx g l.fromBusId then y_pu l + ⟨0, l.b_pu / 2⟩ else 0) +
  (if p = busIdx g l.toBusId ∧ q = busIdx g l.toBusId then y_pu l + ⟨0, l.b_pu / 2⟩ else 0)

/-- The Y-bus entry as the specification describes it: the sum of the
closed lines' PI-model contributions; open lines contribute nothing. -/
noncomputable def yBusSpec (g : Grid) (p q : ℕ) : ℂ :=
  ((closedLines g).map fun l => lineContrib g l p q).sum

/-! ## Concrete fixtures used by the closed demonstration theorems -/

/-- A load bus with key 0 at flat initial state. -/
def demoBusA : Bus :=
  { id := 0, busType := .pq, voltage_pu := 1, angle_deg := 0,
    p_gen := 0, q_gen := 0, p_load := 0, q_load := 0,
    is_faulted := false, fault_type := none }

/-- A load bus with key 1. -/
def demoBusB : Bus :=
  { id := 1, busType := .pq, voltage_pu := 1, angle_deg := 0,
    p_gen := 0, q_gen := 0, p_load := 0, q_load := 0,
    is_faulted := false, fault_type := none }

/-- A closed line with key 0 between buses 0 and 1, with per-unit
series impedance 1 + 0j and no shunt susceptance. -/
def demoLine : Line :=
  { id := 0, fromBusId := 0, toBusId := 1, length_km := 1,
    r_pu := 1, x_pu := 0, b_pu := 0, r0_pu := 3, x0_pu := 0,
    rating_mva := 400, is_closed := true, is_faulted := false,
    fault_type := none, fault_location := 0, current_pu := 0,
    power_flow_mw := 0, loading_percent := 0 }

/-- A two-bus, one-line grid with an invalid cache. -/
def demoGrid : Grid :=
  { buses := [(0, demoBusA), (1, demoBusB)], lines := [(0, demoLine)],
    adjacency := [(0, [1]), (1, [0])], yBusValid := false, yBusCache := none }

/-- The demo grid after one build_y_bus call has filled the cache. -/
noncomputable def demoGridCached : Grid := (buildYBus demoGrid).1

/-- The cached demo grid after line.open_line() on its only line. -/
noncomputable def demoGridOpened : Grid := modifyLine demoGridCached 0 openLine

/-- A grid holding only bus 0. -/
def oneBusGrid : Grid := addBus emptyGrid demoBusA

/-! ## Fault records (faults/types.py) -/

/-- The Fault dataclass.  Python keys the stored currents by the fault
object's identity; the nid field is that identity surrogate, assigned
from a fresh counter at creation. -/
structure Fault where
  fault_type : FaultType
  location_type : LocKind
  element_id : ℕ
  position : ℝ
  resistance : ℝ
  is_active : Bool
  detected : Bool
  detected_location : Option ℝ
  nid : ℕ

/-! ## Graph-based detector (detection/graph_based.py) -/

/-- A suspected fault section; the evidence strings are omitted (no
claim reads them). -/
structure FaultSection where
  bus_ids : List ℕ
  line_ids : List ℕ
  probability : ℝ

/-- GraphDetectionResult without the message string. -/
structure GraphDetectionResult where
  detected : Bool
  fault_sections : List FaultSection
  faulted_line_id : Option ℕ
  faulted_bus_id : Option ℕ
  estimated_position : Option ℝ

/-- The bus a line references through its stored key.  The network owns
the buses, so for any well-formed grid (line endpoints exist, as the
spec requires) the lookup succeeds and the default is never used. -/
def busOf (g : Grid) (k : ℕ) : Bus := (dget g.buses k).getD demoBusA

/-- GraphBasedDetector._two_terminal_location: voltage-drop ratio with
two 1e-10 guards and a clamp to [0, 1]. -/
noncomputable def twoTerminalLocation (fb tb : Bus) : ℝ :=
  let vFrom := Complex.abs (voltageComplex fb)
  let vTo := Complex.abs (voltageComplex tb)
  if vFrom + vTo < tiny then 1 / 2
  else if (1 - vFrom) + (1 - vTo) < tiny then 1 / 2
  else max 0 (min 1 ((1 - vFrom) / ((1 - vFrom) + (1 - vTo))))

/-- The first line carrying the faulted flag, in dict order. -/
def findFaultedLine (g : Grid) : Option (ℕ × Line) :=
  g.lines.find? fun p => p.2.is_faulted

/-- The first bus carrying the faulted flag, in dict order. -/
def findFaultedBus (g : Grid) : Option (ℕ × Bus) :=
  g.buses.find? fun p => p.2.is_faulted

/-- Grid.get_connected_lines restricted to the line keys. -/
def connectedLineIds (g : Grid) (k : ℕ) : List ℕ :=
  (g.lines.filter fun p => p.2.fromBusId = k ∨ p.2.toBusId = k).map Prod.fst

/-- The voltage_deviations entry of a bus (0 for an unknown key, as
dict.get(b, 0) returns). -/
def voltageDeviation (g : Grid) (b : ℕ) : ℝ :=
  match dget g.buses b with
  | some bus => |1 - bus.voltage_pu|
  | none => 0

/-- max(affected, key=deviation), keeping the earlier element on ties. -/
noncomputable def maxDropBus (g : Grid) : List ℕ → ℕ → ℕ
  | [], best => best
  | b :: rest, best =>
    maxDropBus g rest (if voltageDeviation g best < voltageDeviation g b then b else best)

/-- GraphBasedDetector._localize_fault: report the first faulted line
(confidence 0.95, two-terminal position estimate), else the first
faulted bus (confidence 0.90), else the voltage-anomaly region
(confidence 0.50), else a miss.  Returns the result together with the
possibly updated fault record. -/
noncomputable def localizeFault (g : Grid) (fault : Fault) (affected : List ℕ) :
    GraphDetectionResult × Fault :=
  match findFaultedLine g with
  | some kl =>
    let pos := twoTerminalLocation (busOf g kl.2.fromBusId) (busOf g kl.2.toBusId)
    let sec : FaultSection :=
      { bus_ids := [kl.2.fromBusId, kl.2.toBusId], line_ids := [kl.1], probability := 95 / 100 }
    let fault' :=
      if fault.location_type = .line ∧ fault.element_id = kl.1 then
        { fault with detected := true, detected_location := some pos }
      else fault
    ({ detected := true, fault_sections := [sec], faulted_line_id := some kl.1,
       faulted_bus_id := none, estimated_position := some pos }, fault')
  | none =>
    match findFaultedBus g with
    | some kb =>
      let sec : FaultSection :=
        { bus_ids := [kb.1], line_ids := connectedLineIds g kb.1, probability := 9 / 10 }
      let fault' :=
        if fault.location_type = .bus ∧ fault.element_id = kb.1 then
          { fault with detected := true }
        else fault
      ({ detected := true, fault_sections := [sec], faulted_line_id := none,
         faulted_bus_id := some kb.1, estimated_position := none }, fault')
    | none =>
      match affected with
      | [] =>
        ({ detected := false, fault_sections := [], faulted_line_id := none,
           faulted_bus_id := none, estimated_position := none }, fault)
      | b :: rest =>
        let center := maxDropBus g rest b
        let sec : FaultSection :=
          { bus_ids := affected, line_ids := [], probability := 1 / 2 }
        ({ detected := true, fault_sections := [sec], faulted_line_id := none,
           faulted_bus_id := some center, estimated_position := none }, fault)

/-- The demo line carrying a fault flag. -/
def demoFaultedLine : Line :=
  { demoLine with is_faulted := true, fault_type := some FaultType.slg }

/-- The demo grid with its line faulted. -/
def demoFaultedGrid : Grid := { demoGrid with lines := [(0, demoFaultedLine)] }

/-- A fault record matching the demo faulted line. -/
def demoFault : Fault :=
  { fault_type := .slg, location_type := .line, element_id := 0, position := 0,
    resistance := 0, is_active := true, detected := false, detected_location := none,
    nid := 0 }

/-- A bus whose voltage drop is 9e-11, below the 1e-10 guard. -/
noncomputable def busDropA : Bus := { demoBusA with voltage_pu := 1 - 9 / 10 ^ 11 }

/-- A bus whose voltage drop is 3e-11, below the 1e-10 guard. -/
noncomputable def busDropB : Bus := { demoBusB with voltage_pu := 1 - 3 / 10 ^ 11 }

/-! ## Sequence networks (power/impedance.py, Grid.build_z_bus) -/

/-- A cached matrix function cut down to the n-by-n numpy array. -/
def yMat (g : Grid) (m : ℕ → ℕ → ℂ) : Matrix (Fin (nBuses g)) (Fin (nBuses g)) ℂ :=
  Matrix.of fun i j => m i.val j.val

open Classical in
/-- np.linalg.inv with the source's fallback: when the matrix is
singular (LinAlgError), invert after adding the 1e-10 diagonal
regularization. -/
noncomputable def invOrReg {n : ℕ} (A : Matrix (Fin n) (Fin n) ℂ) :
    Matrix (Fin n) (Fin n) ℂ :=
  if IsUnit A.det then A⁻¹ else (A + ((1 / 10 ^ 10 : ℂ)) • 1)⁻¹

/-- Grid.build_z_bus: invert the (cache-aware) Y-bus; returns the grid
with its cache possibly filled, as the shared grid object ends up. -/
noncomputable def buildZBus (g : Grid) :
    Grid × Matrix (Fin (nBuses g)) (Fin (nBuses g)) ℂ :=
  ((buildYBus g).1, invOrReg (yMat g (buildYBus g).2))

/-- One line's pass of the zero-sequence assembly loop: per-line z0,
no shunt term. -/
noncomputable def y0Step (g : Grid) (M : ℕ → ℕ → ℂ) (l : Line) : ℕ → ℕ → ℂ :=
  if l.is_closed then
    let i := busIdx g l.fromBusId
    let j := busIdx g l.toBusId
    let y0 : ℂ := if tiny < Complex.abs (z0_pu l) then 1 / z0_pu l else 0
    addAt (addAt (addAt (addAt M i j (-y0)) j i (-y0)) i i y0) j j y0
  else M

/-- The zero-sequence Y-bus assembly loop of build_sequence_networks. -/
noncomputable def computeY0Bus (g : Grid) : ℕ → ℕ → ℂ :=
  (g.lines.map Prod.snd).foldl (y0Step g) fun _ _ => 0

/-- build_sequence_networks: Z1 from build_z_bus, Z2 a copy of Z1, Z0
from the zero-sequence assembly, inverted the same way.  Returned as
(grid after the cache fill, (Z0, Z1, Z2)). -/
noncomputable def buildSequenceNetworks (g : Grid) :
    Grid × (Matrix (Fin (nBuses g)) (Fin (nBuses g)) ℂ ×
      Matrix (Fin (nBuses g)) (Fin (nBuses g)) ℂ ×
      Matrix (Fin (nBuses g)) (Fin (nBuses g)) ℂ) :=
  ((buildZBus g).1,
    (invOrReg (yMat g (computeY0Bus g)), (buildZBus g).2, (buildZBus g).2))

/-- bus_id_to_idx.get: the Fin-valued matrix index of a bus key, none
for an unknown key. -/
def busIdxFin (g : Grid) (k : ℕ) : Option (Fin (nBuses g)) :=
  if h : k ∈ sortedBusIds g then
    some ⟨(sortedBusIds g).indexOf k, by
      have hlen : (sortedBusIds g).length = nBuses g := by
        unfold sortedBusIds busKeys nBuses
        rw [(List.perm_insertionSort (· ≤ ·) (g.buses.map Prod.fst)).length_eq,
          List.length_map]
      exact hlen ▸ List.indexOf_lt_length.mpr h⟩
  else none

/-! ## Fault simulator (faults/simulator.py) -/

/-- FaultSimulator state: the shared grid, the active fault list, the
stored per-phase currents keyed by fault identity, and the fresh
identity counter. -/
structure SimState where
  grid : Grid
  activeFaults : List Fault
  faultCurrents : List (ℕ × (ℝ × ℝ × ℝ))
  nextId : ℕ

/-- Base current in amperes: POWER_BASE * 1e6 / (sqrt 3 * 220e3). -/
noncomputable def iBase : ℝ := 100 * 10 ^ 6 / (Real.sqrt 3 * (220 * 10 ^ 3))

/-- FaultSimulator._calculate_line_fault_current: Thevenin view at the
from-bus plus the line impedance to the fault point, fault model
dispatch, Fortescue transform, store of the per-phase magnitudes in
amperes.  Returns without storing when the line or its from-bus index
is missing. -/
noncomputable def calcLineFaultCurrent (s : SimState) (f : Fault) : SimState :=
  match dget s.grid.lines f.element_id with
  | none => s
  | some line =>
    let g1 := (buildSequenceNetworks s.grid).1
    let z0b := (buildSequenceNetworks s.grid).2.1
    let z1b := (buildSequenceNetworks s.grid).2.2.1
    let z2b := (buildSequenceNetworks s.grid).2.2.2
    match busIdxFin s.grid line.fromBusId with
    | none => { s with grid := g1 }
    | some fi =>
      let z0 := z0b fi fi + z0_pu line * ((f.position : ℝ) : ℂ)
      let z1v := z1b fi fi + getImpedanceToPoint line f.position
      let z2v := z2b fi fi + getImpedanceToPoint line f.position
      let zf := f.resistance / 484
      let iseq := getFaultModel f.fault_type 1 z0 z1v z2v zf
      let ph := seqToPhase iseq.1 iseq.2.1 iseq.2.2
      { s with
        grid := g1
        faultCurrents := dictSet s.faultCurrents f.nid
          (Complex.abs ph.1 * iBase, Complex.abs ph.2.1 * iBase,
           Complex.abs ph.2.2 * iBase) }

/-- FaultSimulator.inject_line_fault: none for an unknown line key;
otherwise clamp the position, build the fault record, open the line
for an OPEN fault, mark the line faulted, compute and store the fault
current, append the fault to the active list. -/
noncomputable def injectLineFault (s : SimState) (lineId : ℕ) (ft : FaultType)
    (position resistance : ℝ) : SimState × Option Fault :=
  match dget s.grid.lines lineId with
  | none => (s, none)
  | some _ =>
    let pos := max 0 (min 1 position)
    let f : Fault :=
      { fault_type := ft, location_type := .line, element_id := lineId,
        position := pos, resistance := resistance, is_active := true,
        detected := false, detected_location := none, nid := s.nextId }
    let g1 := if ft = .opn then modifyLine s.grid lineId openLine else s.grid
    let g2 := modifyLine g1 lineId fun l => applyFault l ft pos
    let s1 : SimState := { s with grid := g2, nextId := s.nextId + 1 }
    let s2 := calcLineFaultCurrent s1 f
    ({ s2 with activeFaults := s2.activeFaults ++ [f] }, some f)

/-- A fresh fault simulator on the two-bus demo grid. -/
def demoSim : SimState :=
  { grid := demoGrid, activeFaults := [], faultCurrents := [], nextId := 0 }

/-! ## Newton-Raphson power flow (power/flow.py) -/

/-- The solver's iterate: voltage magnitudes and angles indexed by the
canonical matrix index. -/
structure PFState where
  vMag : ℕ → ℝ
  vAng : ℕ → ℝ

/-- The buses in canonical (sorted-key) order. -/
def sortedBuses (g : Grid) : List Bus :=
  (sortedBusIds g).filterMap fun k => dget g.buses k

/-- The bus at a matrix index. -/
def busAt (g : Grid) (i : ℕ) : Option Bus := (sortedBuses g).get? i

/-- The initial iterate: np.ones / np.zeros overwritten per bus with
the stored magnitude and the stored angle converted to radians. -/
noncomputable def initState (g : Grid) : PFState :=
  { vMag := fun i =>
      match busAt g i with
      | some b => b.voltage_pu
      | none => 1
    vAng := fun i =>
      match busAt g i with
      | some b => b.angle_deg * Real.pi / 180
      | none => 0 }

/-- Specified active injection in per-unit (p_net over POWER_BASE). -/
noncomputable def pSpec (g : Grid) (i : ℕ) : ℝ :=
  match busAt g i with
  | some b => pNet b / 100
  | none => 0

/-- Specified reactive injection in per-unit. -/
noncomputable def qSpec (g : Grid) (i : ℕ) : ℝ :=
  match busAt g i with
  | some b => qNet b / 100
  | none => 0

/-- The slack index: the last slack-typed bus in dict order, none when
there is no slack bus. -/
def slackIdx (g : Grid) : Option ℕ :=
  g.buses.foldl
    (fun acc p => if p.2.busType = BusType.slack then some (busIdx g p.1) else acc) none

/-- PQ bus indices in dict order (buses that are neither slack nor
generator). -/
def pqIdxList (g : Grid) : List ℕ :=
  g.buses.foldl
    (fun acc p =>
      if p.2.busType = BusType.slack ∨ p.2.busType = BusType.pv then acc
      else acc ++ [busIdx g p.1]) []

/-- The non-slack matrix indices (every index when no slack exists, as
the Python comparison with None never matches). -/
def nonSlackList (g : Grid) : List ℕ :=
  (List.range (nBuses g)).filter fun i => decide (slackIdx g ≠ some i)

/-- Computed active injection at one bus from the Y-bus entries. -/
noncomputable def pCalc (Y : ℕ → ℕ → ℂ) (n : ℕ) (vm va : ℕ → ℝ) (i : ℕ) : ℝ :=
  (Finset.range n).sum fun j =>
    vm i * vm j * ((Y i j).re * Real.cos (va i - va j) + (Y i j).im * Real.sin (va i - va j))

/-- Computed reactive injection at one bus. -/
noncomputable def qCalc (Y : ℕ → ℕ → ℂ) (n : ℕ) (vm va : ℕ → ℝ) (i : ℕ) : ℝ :=
  (Finset.range n).sum fun j =>
    vm i * vm j * ((Y i j).re * Real.sin (va i - va j) - (Y i j).im * Real.cos (va i - va j))

/-- The mismatch vector: active-power mismatches on the non-slack buses
followed by reactive-power mismatches on the PQ buses. -/
noncomputable def mismatchList (g : Grid) (Y : ℕ → ℕ → ℂ) (vm va : ℕ → ℝ) : List ℝ :=
  ((nonSlackList g).map fun i => pSpec g i - pCalc Y (nBuses g) vm va i) ++
  ((pqIdxList g).map fun i => qSpec g i - qCalc Y (nBuses g) vm va i)

/-- np.max of the absolute values (zero base; the mismatch entries are
compared through their absolute values, all nonnegative). -/
noncomputable def maxAbsList (l : List ℝ) : ℝ := l.foldl (fun m x => max m |x|) 0

/-- Jacobian block dP/dtheta. -/
noncomputable def j11 (Y : ℕ → ℕ → ℂ) (n : ℕ) (vm va : ℕ → ℝ) (i j : ℕ) : ℝ :=
  if i = j then -(qCalc Y n vm va i) - (Y i i).im * vm i ^ 2
  else vm i * vm j * ((Y i j).re * Real.sin (va i - va j) - (Y i j).im * Real.cos (va i - va j))

/-- Jacobian block dP/dV (stored scaled: the solver solves for the
relative magnitude correction). -/
noncomputable def j12 (Y : ℕ → ℕ → ℂ) (n : ℕ) (vm va : ℕ → ℝ) (i j : ℕ) : ℝ :=
  if i = j then pCalc Y n vm va i / vm i + (Y i i).re * vm i
  else vm i * ((Y i j).re * Real.cos (va i - va j) + (Y i j).im * Real.sin (va i - va j))

/-- Jacobian block dQ/dtheta. -/
noncomputable def j21 (Y : ℕ → ℕ → ℂ) (n : ℕ) (vm va : ℕ → ℝ) (i j : ℕ) : ℝ :=
  if i = j then pCalc Y n vm va i - (Y i i).re * vm i ^ 2
  else -(vm i * vm j * ((Y i j).re * Real.cos (va i - va j) + (Y i j).im * Real.sin (va i - va j)))

/-- Jacobian block dQ/dV (scaled). -/
noncomputable def j22 (Y : ℕ → ℕ → ℂ) (n : ℕ) (vm va : ℕ → ℝ) (i j : ℕ) : ℝ :=
  if i = j then qCalc Y n vm va i / vm i - (Y i i).im * vm i
  else vm i * ((Y i j).re * Real.sin (va i - va j) - (Y i j).im * Real.cos (va i - va j))

/-- The reduced linear system's dimension: free angles plus free
magnitudes. -/
def jdim (g : Grid) : ℕ := (nonSlackList g).length + (pqIdxList g).length

/-- The reduced Jacobian assembled from the four blocks restricted to
the free variables. -/
noncomputable def jacobian (g : Grid) (Y : ℕ → ℕ → ℂ) (vm va : ℕ → ℝ) :
    Matrix (Fin (jdim g)) (Fin (jdim g)) ℝ :=
  Matrix.of fun r c =>
    if r.val < (nonSlackList g).length then
      if c.val < (nonSlackList g).length then
        j11 Y (nBuses g) vm va ((nonSlackList g).getD r.val 0) ((nonSlackList g).getD c.val 0)
      else
        j12 Y (nBuses g) vm va ((nonSlackList g).getD r.val 0)
          ((pqIdxList g).getD (c.val - (nonSlackList g).length) 0)
    else
      if c.val < (nonSlackList g).length then
        j21 Y (nBuses g) vm va ((pqIdxList g).getD (r.val - (nonSlackList g).length) 0)
          ((nonSlackList g).getD c.val 0)
      else
        j22 Y (nBuses g) vm va ((pqIdxList g).getD (r.val - (nonSlackList g).length) 0)
          ((pqIdxList g).getD (c.val - (nonSlackList g).length) 0)

/-- The mismatch vector as the right-hand side of the linear system. -/
noncomputable def mismatchVec (g : Grid) (Y : ℕ → ℕ → ℂ) (vm va : ℕ → ℝ) :
    Fin (jdim g) → ℝ :=
  fun r => (mismatchList g Y vm va).getD r.val 0

open Classical in
/-- np.linalg.solve, falling back on the singular case (LinAlgError) to
np.linalg.lstsq, modelled through the normal equations. -/
noncomputable def npSolveOrLstsq {m : ℕ} (A : Matrix (Fin m) (Fin m) ℝ) (b : Fin m → ℝ) :
    Fin m → ℝ :=
  if IsUnit A.det then A⁻¹.mulVec b else (A.transpose * A)⁻¹.mulVec (A.transpose.mulVec b)

/-- Pointwise array write. -/
def updFun (f : ℕ → ℝ) (k : ℕ) (v : ℝ) : ℕ → ℝ := fun x => if x = k then v else f x

/-- One Newton-Raphson correction step: solve for the corrections and
apply the angle corrections to the non-slack buses and the relative
magnitude corrections to the PQ buses. -/
noncomputable def nrStep (g : Grid) (Y : ℕ → ℕ → ℂ) (s : PFState) : PFState :=
  let corr := List.ofFn (npSolveOrLstsq (jacobian g Y s.vMag s.vAng)
    (mismatchVec g Y s.vMag s.vAng))
  let va2 := ((nonSlackList g).enum).foldl
    (fun f p => updFun f p.2 (f p.2 + corr.getD p.1 0)) s.vAng
  let vm2 := ((pqIdxList g).enum).foldl
    (fun f p => updFun f p.2 (f p.2 + corr.getD ((nonSlackList g).length + p.1) 0 * f p.2))
    s.vMag
  { vMag := vm2, vAng := va2 }

/-- The k-th Newton-Raphson iterate. -/
noncomputable def nrIterate (g : Grid) (Y : ℕ → ℕ → ℂ) (s0 : PFState) : ℕ → PFState
  | 0 => s0
  | k + 1 => nrStep g Y (nrIterate g Y s0 k)

/-- The solver loop: check the mismatch, stop converged when it is
below tolerance, otherwise correct and continue until the fuel (the
iteration cap) runs out.  Returns (state, converged, iterations,
mismatch). -/
noncomputable def nrLoop (g : Grid) (Y : ℕ → ℕ → ℂ) :
    ℕ → ℕ → PFState → ℝ → PFState × Bool × ℕ × ℝ
  | 0, _, s, mPrev => (s, false, 0, mPrev)
  | fuel + 1, iter, s, _ =>
    let m := maxAbsList (mismatchList g Y s.vMag s.vAng)
    if m < tol then (s, true, iter + 1, m)
    else nrLoop g Y fuel (iter + 1) (nrStep g Y s) m

/-- Store results back to buses: solved magnitude, angle converted back
to degrees. -/
noncomputable def writeBack (g : Grid) (s : PFState) : List (ℕ × Bus) :=
  g.buses.map fun p =>
    (p.1, { p.2 with
            voltage_pu := s.vMag (busIdx g p.1)
            angle_deg := s.vAng (busIdx g p.1) * 180 / Real.pi })

/-- PowerFlow._calculate_line_flows: open lines get zero loading; a
closed line carries (Vi - Vj) y_series, reported as current magnitude
and sent real power scaled by POWER_BASE. -/
noncomputable def lineFlows (g : Grid) (s : PFState) : List (ℕ × Line) :=
  g.lines.map fun p =>
    (p.1,
      if p.2.is_closed then
        let i := busIdx g p.2.fromBusId
        let j := busIdx g p.2.toBusId
        let vi : ℂ := ((s.vMag i : ℝ) : ℂ) * Complex.exp (Complex.I * ((s.vAng i : ℝ) : ℂ))
        let vj : ℂ := ((s.vMag j : ℝ) : ℂ) * Complex.exp (Complex.I * ((s.vAng j : ℝ) : ℂ))
        let iij := (vi - vj) * y_pu p.2
        let sij := vi * (starRingEnd ℂ) iij * 100
        updateLoading p.2 (Complex.abs iij) sij.re
      else updateLoading p.2 0 0)

/-- PowerFlow.solve with the default cap of 50 iterations: build the
Y-bus (cache-aware), iterate, then unconditionally write the final
iterate back to the buses and recompute the line flows.  Returns the
updated grid with (converged, iterations, mismatch). -/
noncomputable def pfSolve (g : Grid) : Grid × Bool × ℕ × ℝ :=
  let g1 := (buildYBus g).1
  let r := nrLoop g1 (buildYBus g).2 50 0 (initState g1) 0
  ({ g1 with buses := writeBack g1 r.1, lines := lineFlows g1 r.1 },
   r.2.1, r.2.2.1, r.2.2.2)

/-- The k-th iterate of the solve on a given grid. -/
noncomputable def pfIterateOf (g : Grid) (k : ℕ) : PFState :=
  nrIterate (buildYBus g).1 (buildYBus g).2 (initState (buildYBus g).1) k

/-- The max absolute mismatch of the k-th iterate. -/
noncomputable def pfMismatchAt (g : Grid) (k : ℕ) : ℝ :=
  maxAbsList (mismatchList (buildYBus g).1 (buildYBus g).2
    (pfIterateOf g k).vMag (pfIterateOf g k).vAng)

/-- A single PQ bus drawing 100 MW. -/
def soloBus : Bus :=
  { id := 0, busType := .pq, voltage_pu := 1, angle_deg := 0,
    p_gen := 0, q_gen := 0, p_load := 100, q_load := 0,
    is_faulted := false, fault_type := none }

/-- A one-bus grid with a load and no lines: its mismatch can never
shrink, so Newton-Raphson never converges. -/
def soloGrid : Grid :=
  { buses := [(0, soloBus)], lines := [], adjacency := [(0, [])],
    yBusValid := false, yBusCache := none }

end GridSim

namespace GridSim

/-- The guarded denominator never vanishes. -/
theorem guardZ_ne_zero (z : ℂ) : guardZ z ≠ 0 := by
  unfold guardZ
  split
  · intro h
    have h10 : (0 : ℝ) < tiny := by unfold tiny; norm_num
    have : ((tiny : ℝ) : ℂ).re = 0 := by rw [h]; simp
    simp [Complex.ofReal_re] at this
    exact absurd this (ne_of_gt h10)
  · intro h
    rename_i hnot
    rw [h] at hnot
    simp at hnot
    have h10 : (0 : ℝ) < tiny := by unfold tiny; norm_num
    exact absurd hnot (not_le.mpr h10)

/-- When the magnitude is at least the threshold the guard is the identity. -/
theorem guardZ_of_ge (z : ℂ) (h : tiny ≤ Complex.abs z) : guardZ z = z := by
  unfold guardZ
  exact if_neg (not_lt.mpr h)

/-- When the magnitude is below the threshold the guard yields the real 1e-10. -/
theorem guardZ_of_lt (z : ℂ) (h : Complex.abs z < tiny) : guardZ z = ((tiny : ℝ) : ℂ) := by
  unfold guardZ
  exact if_pos h

/-- The Fortescue operator has unit magnitude. -/
theorem abs_fortA : Complex.abs fortA = 1 := by
  unfold fortA
  rw [Complex.abs_exp]
  have : (Complex.I * ((2 * Real.pi / 3 : ℝ) : ℂ)).re = 0 := by
    simp [Complex.mul_re]
  rw [this, Real.exp_zero]

/-- C10: close_line sets is_closed and additionally resets is_faulted
and fault_type, leaving every other line field (impedances, rating,
fault_location, flow values) unchanged. -/
theorem C10_close_line_frame (l : Line) :
    (closeLine l).is_closed = true ∧ (closeLine l).is_faulted = false ∧
    (closeLine l).fault_type = none ∧ (closeLine l).id = l.id ∧
    (closeLine l).fromBusId = l.fromBusId ∧ (closeLine l).toBusId = l.toBusId ∧
    (closeLine l).length_km = l.length_km ∧ (closeLine l).r_pu = l.r_pu ∧
    (closeLine l).x_pu = l.x_pu ∧ (closeLine l).b_pu = l.b_pu ∧
    (closeLine l).r0_pu = l.r0_pu ∧ (closeLine l).x0_pu = l.x0_pu ∧
    (closeLine l).rating_mva = l.rating_mva ∧
    (closeLine l).fault_location = l.fault_location ∧
    (closeLine l).current_pu = l.current_pu ∧
    (closeLine l).power_flow_mw = l.power_flow_mw ∧
    (closeLine l).loading_percent = l.loading_percent :=
  ⟨rfl, rfl, rfl, rfl, rfl, rfl, rfl, rfl, rfl, rfl, rfl, rfl, rfl, rfl, rfl, rfl, rfl⟩

/-- C6: with the series-connection denominator at or above the guard
threshold, the SLG model returns the three equal sequence currents
V_f / (Z0 + Z1 + Z2 + 3 Z_f). -/
theorem C6_slg_series (v_f z0 z1 z2 : ℂ) (z_f : ℝ)
    (h : tiny ≤ Complex.abs (z0 + z1 + z2 + 3 * (z_f : ℂ))) :
    slgCalc v_f z0 z1 z2 z_f =
      (v_f / (z0 + z1 + z2 + 3 * (z_f : ℂ)),
       v_f / (z0 + z1 + z2 + 3 * (z_f : ℂ)),
       v_f / (z0 + z1 + z2 + 3 * (z_f : ℂ))) := by
  unfold slgCalc
  rw [guardZ_of_ge _ h]

/-- Witness for C6 at V_f = 1, Z0 = 1, Z1 = Z2 = 0, Z_f = 0. -/
theorem C6_slg_series_witness :
    slgCalc 1 1 0 0 0 =
      (1 / ((1 : ℂ) + 0 + 0 + 3 * ((0 : ℝ) : ℂ)),
       1 / ((1 : ℂ) + 0 + 0 + 3 * ((0 : ℝ) : ℂ)),
       1 / ((1 : ℂ) + 0 + 0 + 3 * ((0 : ℝ) : ℂ))) :=
  C6_slg_series 1 1 0 0 0 (by
    rw [show (1 : ℂ) + 0 + 0 + 3 * ((0 : ℝ) : ℂ) = 1 by norm_num, map_one]
    unfold tiny
    norm_num)

/-- C7: a three-phase fault yields phase currents of equal magnitude
(within 1e-6) and a zero-sequence current of magnitude below 1e-10. -/
theorem C7_three_phase_balanced (v_f z0 z1 z2 : ℂ) (z_f : ℝ) :
    |Complex.abs (seqToPhase (lllCalc v_f z0 z1 z2 z_f).1 (lllCalc v_f z0 z1 z2 z_f).2.1
        (lllCalc v_f z0 z1 z2 z_f).2.2).1 -
      Complex.abs (seqToPhase (lllCalc v_f z0 z1 z2 z_f).1 (lllCalc v_f z0 z1 z2 z_f).2.1
        (lllCalc v_f z0 z1 z2 z_f).2.2).2.1| ≤ 1 / 10 ^ 6 ∧
    |Complex.abs (seqToPhase (lllCalc v_f z0 z1 z2 z_f).1 (lllCalc v_f z0 z1 z2 z_f).2.1
        (lllCalc v_f z0 z1 z2 z_f).2.2).2.1 -
      Complex.abs (seqToPhase (lllCalc v_f z0 z1 z2 z_f).1 (lllCalc v_f z0 z1 z2 z_f).2.1
        (lllCalc v_f z0 z1 z2 z_f).2.2).2.2| ≤ 1 / 10 ^ 6 ∧
    |Complex.abs (seqToPhase (lllCalc v_f z0 z1 z2 z_f).1 (lllCalc v_f z0 z1 z2 z_f).2.1
        (lllCalc v_f z0 z1 z2 z_f).2.2).1 -
      Complex.abs (seqToPhase (lllCalc v_f z0 z1 z2 z_f).1 (lllCalc v_f z0 z1 z2 z_f).2.1
        (lllCalc v_f z0 z1 z2 z_f).2.2).2.2| ≤ 1 / 10 ^ 6 ∧
    Complex.abs (lllCalc v_f z0 z1 z2 z_f).1 < tiny := by
  have habs : ∀ w : ℂ, Complex.abs (fortA * w) = Complex.abs w := by
    intro w
    rw [map_mul, abs_fortA, one_mul]
  have habs2 : ∀ w : ℂ, Complex.abs (fortA * fortA * w) = Complex.abs w := by
    intro w
    rw [mul_assoc, habs, habs]
  unfold lllCalc seqToPhase
  simp only [zero_add, add_zero, mul_zero]
  refine ⟨?_, ?_, ?_, ?_⟩
  · rw [habs2, sub_self, abs_zero]
    positivity
  · rw [habs2, habs, sub_self, abs_zero]
    positivity
  · rw [habs, sub_self, abs_zero]
    positivity
  · rw [map_zero]
    unfold tiny
    norm_num

/-- C5 counterexample: at Z0 = j 1e-11 (Z1 = Z2 = Z_f = 0) the series
denominator is below the threshold; the SLG model replaces it by the
real 1e-10 and returns 1e10, not the direction-preserving value
1 / (1e-10 j). -/
theorem C5_direction_counterexample :
    Complex.abs (((1 / 10 ^ 11 : ℝ) : ℂ) * Complex.I + 0 + 0 + 3 * ((0 : ℝ) : ℂ)) < tiny ∧
    (slgCalc 1 (((1 / 10 ^ 11 : ℝ) : ℂ) * Complex.I) 0 0 0).2.1 = (10 ^ 10 : ℂ) ∧
    (slgCalc 1 (((1 / 10 ^ 11 : ℝ) : ℂ) * Complex.I) 0 0 0).2.1 ≠
      1 / (((tiny : ℝ) : ℂ) * Complex.I) := by
  have hsum : ((1 / 10 ^ 11 : ℝ) : ℂ) * Complex.I + 0 + 0 + 3 * ((0 : ℝ) : ℂ) =
      ((1 / 10 ^ 11 : ℝ) : ℂ) * Complex.I := by norm_num
  have hlt : Complex.abs (((1 / 10 ^ 11 : ℝ) : ℂ) * Complex.I + 0 + 0 + 3 * ((0 : ℝ) : ℂ)) <
      tiny := by
    rw [hsum, map_mul, Complex.abs_I, Complex.abs_ofReal, mul_one,
      abs_of_nonneg (by norm_num : (0 : ℝ) ≤ 1 / 10 ^ 11)]
    unfold tiny
    norm_num
  have hval : (slgCalc 1 (((1 / 10 ^ 11 : ℝ) : ℂ) * Complex.I) 0 0 0).2.1 = (10 ^ 10 : ℂ) := by
    unfold slgCalc
    rw [guardZ_of_lt _ hlt]
    unfold tiny
    push_cast
    norm_num
  refine ⟨hlt, hval, ?_⟩
  rw [hval]
  intro h
  have := congrArg Complex.re h
  rw [show (1 : ℂ) / (((tiny : ℝ) : ℂ) * Complex.I) = -(10 ^ 10 : ℂ) * Complex.I by
    unfold tiny
    push_cast
    field_simp] at this
  simp at this
  norm_num at this

/-- C5 amended: in each fault model the division guard replaces a
z_total denominator of magnitude below 1e-10 by the real scalar 1e-10
(its complex direction is discarded), so every returned sequence
current is a quotient by a nonzero denominator.  For DLG this covers
both branches: the equal-split branch divides I1 by 2, and the
current-divider branch divides by the nonzero Z0' + Z2; the OPEN model
returns zeros. -/
theorem C5_guard_real_replacement (v_f z0 z1 z2 : ℂ) (z_f : ℝ) :
    (∃ d : ℂ, d ≠ 0 ∧
       (Complex.abs (z0 + z1 + z2 + 3 * (z_f : ℂ)) < tiny → d = ((tiny : ℝ) : ℂ)) ∧
       slgCalc v_f z0 z1 z2 z_f = (v_f / d, v_f / d, v_f / d)) ∧
    (∃ d : ℂ, d ≠ 0 ∧
       (Complex.abs (z1 + z2 + (z_f : ℂ)) < tiny → d = ((tiny : ℝ) : ℂ)) ∧
       llCalc v_f z0 z1 z2 z_f = (0, v_f / d, -(v_f / d))) ∧
    (∃ d : ℂ, d ≠ 0 ∧
       (Complex.abs (z1 + (z_f : ℂ)) < tiny → d = ((tiny : ℝ) : ℂ)) ∧
       lllCalc v_f z0 z1 z2 z_f = (0, v_f / d, 0)) ∧
    (∃ d : ℂ, d ≠ 0 ∧
       (Complex.abs (z1 + (if Complex.abs (z0 + 3 * (z_f : ℂ) + z2) < tiny then 0
           else (z0 + 3 * (z_f : ℂ)) * z2 / (z0 + 3 * (z_f : ℂ) + z2))) < tiny →
         d = ((tiny : ℝ) : ℂ)) ∧
       (dlgCalc v_f z0 z1 z2 z_f).2.1 = v_f / d ∧
       (Complex.abs (z0 + 3 * (z_f : ℂ) + z2) < tiny →
         (2 : ℂ) ≠ 0 ∧
         dlgCalc v_f z0 z1 z2 z_f = (v_f / d / 2, v_f / d, v_f / d / 2)) ∧
       (¬ Complex.abs (z0 + 3 * (z_f : ℂ) + z2) < tiny →
         z0 + 3 * (z_f : ℂ) + z2 ≠ 0 ∧
         dlgCalc v_f z0 z1 z2 z_f =
           (-(v_f / d) * z2 / (z0 + 3 * (z_f : ℂ) + z2), v_f / d,
            -(v_f / d) * (z0 + 3 * (z_f : ℂ)) / (z0 + 3 * (z_f : ℂ) + z2)))) ∧
    openCalc v_f z0 z1 z2 z_f = (0, 0, 0) := by
  refine ⟨⟨guardZ (z0 + z1 + z2 + 3 * (z_f : ℂ)), guardZ_ne_zero _,
      fun h => guardZ_of_lt _ h, rfl⟩,
    ⟨guardZ (z1 + z2 + (z_f : ℂ)), guardZ_ne_zero _, fun h => guardZ_of_lt _ h, rfl⟩,
    ⟨guardZ (z1 + (z_f : ℂ)), guardZ_ne_zero _, fun h => guardZ_of_lt _ h, rfl⟩,
    ⟨guardZ (z1 + (if Complex.abs (z0 + 3 * (z_f : ℂ) + z2) < tiny then 0
        else (z0 + 3 * (z_f : ℂ)) * z2 / (z0 + 3 * (z_f : ℂ) + z2))), guardZ_ne_zero _,
      fun h => guardZ_of_lt _ h, ?_, ?_, ?_⟩,
    rfl⟩
  · by_cases hc : Complex.abs (z0 + 3 * (z_f : ℂ) + z2) < tiny
    · simp [dlgCalc, hc]
    · simp [dlgCalc, hc]
  · intro hc
    refine ⟨two_ne_zero, ?_⟩
    simp [dlgCalc, hc]
  · intro hc
    have hne : z0 + 3 * (z_f : ℂ) + z2 ≠ 0 := by
      intro h0
      apply hc
      rw [h0, map_zero]
      unfold tiny
      norm_num
    refine ⟨hne, ?_⟩
    simp [dlgCalc, hc]

/-- Accumulating into one entry read back pointwise. -/
theorem addAt_apply (M : ℕ → ℕ → ℂ) (a b : ℕ) (v : ℂ) (p q : ℕ) :
    addAt M a b v p q = M p q + if p = a ∧ q = b then v else 0 := by
  unfold addAt
  by_cases h : p = a ∧ q = b
  · simp [h]
  · simp [h]

/-- One assembly pass adds exactly the line's contribution when the
line is closed and nothing when it is open. -/
theorem yBusStep_apply (g : Grid) (M : ℕ → ℕ → ℂ) (l : Line) (p q : ℕ) :
    yBusStep g M l p q = M p q + if l.is_closed then lineContrib g l p q else 0 := by
  unfold yBusStep lineContrib
  by_cases hc : l.is_closed = true
  · simp only [hc, if_true]
    rw [addAt_apply, addAt_apply, addAt_apply, addAt_apply]
    ring
  · simp [hc]

/-- The assembly fold equals the start matrix plus the closed lines'
summed contributions. -/
theorem foldl_yBusStep (g : Grid) (ls : List Line) (M : ℕ → ℕ → ℂ) (p q : ℕ) :
    (ls.foldl (yBusStep g) M) p q =
      M p q + ((ls.filter fun l => l.is_closed).map fun l => lineContrib g l p q).sum := by
  induction ls generalizing M with
  | nil => simp
  | cons l ls ih =>
    simp only [List.foldl_cons]
    rw [ih, yBusStep_apply]
    by_cases hc : l.is_closed = true
    · simp [List.filter_cons, hc]
      ring
    · simp [List.filter_cons, hc]

/-- C1: build_y_bus assembles the positive-sequence Y-bus by summing,
over exactly the closed lines under the ascending-bus-key ordering, the
PI-model contribution of each line; open lines contribute nothing. -/
theorem C1_build_y_bus (g : Grid) (h : g.yBusValid = false) (p q : ℕ) :
    (buildYBus g).2 p q = yBusSpec g p q := by
  obtain ⟨bs, ls, adj, valid, cache⟩ := g
  simp only at h
  subst h
  have hbuild : (buildYBus ⟨bs, ls, adj, false, cache⟩).2 =
      computeYBus ⟨bs, ls, adj, false, cache⟩ := by
    cases cache <;> rfl
  rw [hbuild]
  unfold computeYBus yBusSpec closedLines
  rw [foldl_yBusStep]
  simp

/-- Witness for C1 on the two-bus demo grid, read at entry (0, 1). -/
theorem C1_build_y_bus_witness :
    (buildYBus demoGrid).2 0 1 = yBusSpec demoGrid 0 1 :=
  C1_build_y_bus demoGrid rfl 0 1

/-- C2 demonstration: after build_y_bus has cached the matrix, opening
the only line through line.open_line() leaves the validity flag set, so
the next build_y_bus returns the stale cached matrix (diagonal entry 1
from the now-open line) instead of reassembling (which would give 0). -/
theorem C2_stale_cache_after_open_line :
    demoGridOpened.yBusValid = true ∧
    (buildYBus demoGridOpened).2 0 0 = 1 ∧
    computeYBus demoGridOpened 0 0 = 0 ∧
    (buildYBus demoGridOpened).2 0 0 ≠ computeYBus demoGridOpened 0 0 := by
  have hvalid : demoGridOpened.yBusValid = true := rfl
  have hcache : demoGridOpened.yBusCache = some (computeYBus demoGrid) := rfl
  have hfresh : computeYBus demoGridOpened 0 0 = 0 := rfl
  have hstale : (buildYBus demoGridOpened).2 = computeYBus demoGrid := rfl
  have hone : computeYBus demoGrid 0 0 = 1 := by
    have hz : z_pu demoLine = 1 := by
      unfold z_pu demoLine
      simp [Complex.ext_iff]
    have hy : y_pu demoLine = 1 := by
      unfold y_pu
      rw [hz, map_one]
      rw [if_pos (by unfold tiny; norm_num)]
      norm_num
    have h1 : computeYBus demoGrid 0 0 = yBusStep demoGrid (fun _ _ => 0) demoLine 0 0 := rfl
    rw [h1, yBusStep_apply]
    rw [show demoLine.is_closed = true from rfl]
    simp only [if_true]
    unfold lineContrib
    rw [show busIdx demoGrid demoLine.fromBusId = 0 from rfl,
      show busIdx demoGrid demoLine.toBusId = 1 from rfl,
      show demoLine.b_pu = 0 from rfl]
    norm_num [hy, Complex.ext_iff]
  refine ⟨hvalid, ?_, hfresh, ?_⟩
  · rw [hstale, hone]
  · rw [hstale, hone, hfresh]
    exact one_ne_zero

/-- C4 demonstration: add_line with missing endpoints fails (KeyError),
but only after the line dict has been mutated; with just the to-bus
missing, the from-bus adjacency list has been extended as well. -/
theorem C4_add_line_mutation_leak :
    addLine emptyGrid demoLine = .error { emptyGrid with lines := [(0, demoLine)] } ∧
    [(0, demoLine)] ≠ emptyGrid.lines ∧
    addLine oneBusGrid demoLine =
      .error { oneBusGrid with lines := [(0, demoLine)], adjacency := [(0, [1])] } ∧
    [(0, [1])] ≠ oneBusGrid.adjacency := by
  refine ⟨rfl, ?_, rfl, ?_⟩
  · simp [emptyGrid]
  · simp [oneBusGrid, addBus, emptyGrid, dictSet]

/-- The magnitude of the complex bus voltage is the stored per-unit
magnitude (for a nonnegative magnitude; the angle factor has modulus
one). -/
theorem abs_voltageComplex (b : Bus) (h : 0 ≤ b.voltage_pu) :
    Complex.abs (voltageComplex b) = b.voltage_pu := by
  unfold voltageComplex
  rw [map_mul, Complex.abs_ofReal, abs_of_nonneg h, Complex.abs_exp]
  have hre : (Complex.I * ((b.angle_deg * Real.pi / 180 : ℝ) : ℂ)).re = 0 := by
    simp [Complex.mul_re]
  rw [hre, Real.exp_zero, mul_one]

/-- C9 amended: when the detector finds a line carrying the faulted
flag, the reported section has confidence 0.95 and the estimated
position is the two-terminal value: 0.5 when the sum of the terminal
voltage magnitudes is below 1e-10 or the sum of the two drops is below
1e-10, and the clamped drop ratio otherwise. -/
theorem C9_two_terminal (g : Grid) (fault : Fault) (affected : List ℕ) (k : ℕ) (l : Line)
    (h : findFaultedLine g = some (k, l)) :
    (localizeFault g fault affected).1.estimated_position =
      some (twoTerminalLocation (busOf g l.fromBusId) (busOf g l.toBusId)) ∧
    (localizeFault g fault affected).1.fault_sections =
      [{ bus_ids := [l.fromBusId, l.toBusId], line_ids := [k], probability := 95 / 100 }] ∧
    (localizeFault g fault affected).1.detected = true ∧
    (localizeFault g fault affected).1.faulted_line_id = some k ∧
    (Complex.abs (voltageComplex (busOf g l.fromBusId)) +
        Complex.abs (voltageComplex (busOf g l.toBusId)) < tiny →
      twoTerminalLocation (busOf g l.fromBusId) (busOf g l.toBusId) = 1 / 2) ∧
    (¬ Complex.abs (voltageComplex (busOf g l.fromBusId)) +
        Complex.abs (voltageComplex (busOf g l.toBusId)) < tiny →
      (1 - Complex.abs (voltageComplex (busOf g l.fromBusId))) +
        (1 - Complex.abs (voltageComplex (busOf g l.toBusId))) < tiny →
      twoTerminalLocation (busOf g l.fromBusId) (busOf g l.toBusId) = 1 / 2) ∧
    (¬ Complex.abs (voltageComplex (busOf g l.fromBusId)) +
        Complex.abs (voltageComplex (busOf g l.toBusId)) < tiny →
      ¬ (1 - Complex.abs (voltageComplex (busOf g l.fromBusId))) +
          (1 - Complex.abs (voltageComplex (busOf g l.toBusId))) < tiny →
      twoTerminalLocation (busOf g l.fromBusId) (busOf g l.toBusId) =
        max 0 (min 1 ((1 - Complex.abs (voltageComplex (busOf g l.fromBusId))) /
          ((1 - Complex.abs (voltageComplex (busOf g l.fromBusId))) +
           (1 - Complex.abs (voltageComplex (busOf g l.toBusId))))))) := by
  refine ⟨?_, ?_, ?_, ?_, ?_, ?_, ?_⟩
  · simp only [localizeFault, h]
  · simp only [localizeFault, h]
  · simp only [localizeFault, h]
  · simp only [localizeFault, h]
  · intro h1
    simp only [twoTerminalLocation]
    rw [if_pos h1]
  · intro h1 h2
    simp only [twoTerminalLocation]
    rw [if_neg h1, if_pos h2]
  · intro h1 h2
    simp only [twoTerminalLocation]
    rw [if_neg h1, if_neg h2]

/-- Witness for C9 on the demo grid whose only line is faulted. -/
theorem C9_two_terminal_witness :
    (localizeFault demoFaultedGrid demoFault []).1.estimated_position =
      some (twoTerminalLocation (busOf demoFaultedGrid demoFaultedLine.fromBusId)
        (busOf demoFaultedGrid demoFaultedLine.toBusId)) ∧
    (localizeFault demoFaultedGrid demoFault []).1.fault_sections =
      [{ bus_ids := [demoFaultedLine.fromBusId, demoFaultedLine.toBusId], line_ids := [0],
         probability := 95 / 100 }] ∧
    (localizeFault demoFaultedGrid demoFault []).1.detected = true ∧
    (localizeFault demoFaultedGrid demoFault []).1.faulted_line_id = some 0 ∧
    (Complex.abs (voltageComplex (busOf demoFaultedGrid demoFaultedLine.fromBusId)) +
        Complex.abs (voltageComplex (busOf demoFaultedGrid demoFaultedLine.toBusId)) < tiny →
      twoTerminalLocation (busOf demoFaultedGrid demoFaultedLine.fromBusId)
        (busOf demoFaultedGrid demoFaultedLine.toBusId) = 1 / 2) ∧
    (¬ Complex.abs (voltageComplex (busOf demoFaultedGrid demoFaultedLine.fromBusId)) +
        Complex.abs (voltageComplex (busOf demoFaultedGrid demoFaultedLine.toBusId)) < tiny →
      (1 - Complex.abs (voltageComplex (busOf demoFaultedGrid demoFaultedLine.fromBusId))) +
        (1 - Complex.abs (voltageComplex (busOf demoFaultedGrid demoFaultedLine.toBusId))) <
          tiny →
      twoTerminalLocation (busOf demoFaultedGrid demoFaultedLine.fromBusId)
        (busOf demoFaultedGrid demoFaultedLine.toBusId) = 1 / 2) ∧
    (¬ Complex.abs (voltageComplex (busOf demoFaultedGrid demoFaultedLine.fromBusId)) +
        Complex.abs (voltageComplex (busOf demoFaultedGrid demoFaultedLine.toBusId)) < tiny →
      ¬ (1 - Complex.abs (voltageComplex (busOf demoFaultedGrid demoFaultedLine.fromBusId))) +
          (1 - Complex.abs (voltageComplex (busOf demoFaultedGrid demoFaultedLine.toBusId))) <
            tiny →
      twoTerminalLocation (busOf demoFaultedGrid demoFaultedLine.fromBusId)
        (busOf demoFaultedGrid demoFaultedLine.toBusId) =
        max 0 (min 1
          ((1 - Complex.abs (voltageComplex (busOf demoFaultedGrid demoFaultedLine.fromBusId))) /
            ((1 - Complex.abs (voltageComplex (busOf demoFaultedGrid demoFaultedLine.fromBusId))) +
             (1 - Complex.abs (voltageComplex (busOf demoFaultedGrid demoFaultedLine.toBusId))))))) :=
  C9_two_terminal demoFaultedGrid demoFault [] 0 demoFaultedLine rfl

/-- C9 counterexample: both terminal drops (9e-11 and 3e-11) are below
1e-10, yet the estimate is the ratio 0.75, not the claimed 0.5
fallback: the code's guard tests the sum of drops, not each drop. -/
theorem C9_both_drops_counterexample :
    1 - Complex.abs (voltageComplex busDropA) < tiny ∧
    1 - Complex.abs (voltageComplex busDropB) < tiny ∧
    twoTerminalLocation busDropA busDropB = 3 / 4 ∧
    (3 / 4 : ℝ) ≠ 1 / 2 := by
  have hvA : busDropA.voltage_pu = 1 - 9 / 10 ^ 11 := rfl
  have hvB : busDropB.voltage_pu = 1 - 3 / 10 ^ 11 := rfl
  have hA : Complex.abs (voltageComplex busDropA) = 1 - 9 / 10 ^ 11 := by
    rw [abs_voltageComplex busDropA (by rw [hvA]; norm_num), hvA]
  have hB : Complex.abs (voltageComplex busDropB) = 1 - 3 / 10 ^ 11 := by
    rw [abs_voltageComplex busDropB (by rw [hvB]; norm_num), hvB]
  refine ⟨?_, ?_, ?_, by norm_num⟩
  · rw [hA]
    unfold tiny
    norm_num
  · rw [hB]
    unfold tiny
    norm_num
  · simp only [twoTerminalLocation, hA, hB]
    rw [if_neg (by unfold tiny; norm_num), if_neg (by unfold tiny; norm_num)]
    norm_num

/-- Lookup after an in-place dict replacement finds the new value. -/
theorem dget_map_set {α : Type} (d : List (ℕ × α)) (k : ℕ) (v : α)
    (h : (d.any fun p => p.1 == k) = true) :
    dget (d.map fun p => if p.1 = k then (k, v) else p) k = some v := by
  induction d with
  | nil => simp at h
  | cons p d ih =>
    by_cases hp : p.1 = k
    · simp [dget, hp]
    · have h' : (d.any fun p => p.1 == k) = true := by
        simpa [List.any_cons, hp] using h
      have ihv := ih h'
      simpa [dget, hp] using ihv

/-- Lookup after appending a fresh key finds the appended value. -/
theorem dget_append_fresh {α : Type} (d : List (ℕ × α)) (k : ℕ) (v : α)
    (h : (d.any fun p => p.1 == k) = false) :
    dget (d ++ [(k, v)]) k = some v := by
  induction d with
  | nil => simp [dget]
  | cons p d ih =>
    simp only [List.any_cons, Bool.or_eq_false_iff, beq_eq_false_iff_ne] at h
    have ihv := ih h.2
    simpa [dget, List.cons_append, h.1] using ihv

/-- dict assignment then lookup of the same key. -/
theorem dget_dictSet_self {α : Type} (d : List (ℕ × α)) (k : ℕ) (v : α) :
    dget (dictSet d k v) k = some v := by
  unfold dictSet
  by_cases h : (d.any fun p => p.1 == k) = true
  · rw [if_pos h]
    exact dget_map_set d k v h
  · rw [if_neg h]
    exact dget_append_fresh d k v (Bool.eq_false_iff.mpr h)

/-- In-place modification of the entry under one key, seen by lookup. -/
theorem dget_map_modify {α : Type} (d : List (ℕ × α)) (k : ℕ) (f : α → α) :
    dget (d.map fun p => if p.1 = k then (p.1, f p.2) else p) k = (dget d k).map f := by
  induction d with
  | nil => simp [dget]
  | cons p d ih =>
    by_cases hp : p.1 = k
    · simp [dget, hp]
    · simpa [dget, hp] using ih

/-- modifyLine seen through getLine. -/
theorem dget_modifyLine (g : Grid) (k : ℕ) (f : Line → Line) :
    dget (modifyLine g k f).lines k = (dget g.lines k).map f :=
  dget_map_modify g.lines k f

/-- build_y_bus never changes the line dict. -/
theorem buildYBus_fst_lines (g : Grid) : (buildYBus g).1.lines = g.lines := by
  obtain ⟨bs, ls, adj, v, c⟩ := g
  cases v <;> cases c <;> rfl

/-- build_y_bus never changes the bus dict. -/
theorem buildYBus_fst_buses (g : Grid) : (buildYBus g).1.buses = g.buses := by
  obtain ⟨bs, ls, adj, v, c⟩ := g
  cases v <;> cases c <;> rfl

/-- A known bus key has a matrix index. -/
theorem busIdxFin_isSome (g : Grid) (k : ℕ) (h : k ∈ sortedBusIds g) :
    ∃ fi, busIdxFin g k = some fi :=
  ⟨_, dif_pos h⟩

/-- When the faulted line and its from-bus index are found, the fault
current calculation stores a per-phase triple under the fault's key and
updates the shared grid with the cache fill. -/
theorem calcLine_stores (s : SimState) (f : Fault) (line : Line)
    (fi : Fin (nBuses s.grid))
    (h1 : dget s.grid.lines f.element_id = some line)
    (h2 : busIdxFin s.grid line.fromBusId = some fi) :
    ∃ c, calcLineFaultCurrent s f =
      { s with
        grid := (buildSequenceNetworks s.grid).1
        faultCurrents := dictSet s.faultCurrents f.nid c } := by
  unfold calcLineFaultCurrent
  simp only [h1, h2]
  exact ⟨_, rfl⟩

/-- C8: injecting a fault on an existing line of a well-formed grid
(the line's from-bus key exists) clamps the position to [0, 1], opens
the line for an OPEN fault, marks the line faulted at the clamped
position, appends the fault record to the active list and stores a
phase-current triple keyed by the fault. -/
theorem C8_inject_line_fault (s : SimState) (lineId : ℕ) (ft : FaultType) (pos res : ℝ)
    (line : Line) (hline : dget s.grid.lines lineId = some line)
    (hbus : line.fromBusId ∈ busKeys s.grid) :
    ∃ f : Fault,
      (injectLineFault s lineId ft pos res).2 = some f ∧
      f.position = max 0 (min 1 pos) ∧ 0 ≤ f.position ∧ f.position ≤ 1 ∧
      f.fault_type = ft ∧ f.location_type = .line ∧ f.element_id = lineId ∧
      f.resistance = res ∧
      (injectLineFault s lineId ft pos res).1.activeFaults = s.activeFaults ++ [f] ∧
      (∃ l', dget (injectLineFault s lineId ft pos res).1.grid.lines lineId = some l' ∧
        (ft = .opn → l'.is_closed = false) ∧
        l'.is_faulted = true ∧ l'.fault_type = some ft ∧
        l'.fault_location = max 0 (min 1 pos)) ∧
      ∃ c, dget (injectLineFault s lineId ft pos res).1.faultCurrents f.nid = some c := by
  have hclamp0 : (0 : ℝ) ≤ max 0 (min 1 pos) := le_max_left 0 _
  have hclamp1 : max 0 (min 1 pos) ≤ 1 := max_le zero_le_one (min_le_left 1 pos)
  have hidem : max 0 (min 1 (max 0 (min 1 pos))) = max 0 (min 1 pos) := by
    rw [min_eq_right hclamp1, max_eq_right hclamp0]
  -- the grid after the optional breaker opening
  have hg1 : dget (if ft = .opn then modifyLine s.grid lineId openLine else s.grid).lines
      lineId = some (if ft = .opn then openLine line else line) := by
    by_cases hft : ft = .opn
    · rw [if_pos hft, if_pos hft, dget_modifyLine, hline]
      rfl
    · rw [if_neg hft, if_neg hft]
      exact hline
  -- the grid after apply_fault
  have hg2 : dget (modifyLine (if ft = .opn then modifyLine s.grid lineId openLine else s.grid)
        lineId fun l => applyFault l ft (max 0 (min 1 pos))).lines lineId =
      some (applyFault (if ft = .opn then openLine line else line) ft (max 0 (min 1 pos))) := by
    rw [dget_modifyLine, hg1]
    rfl
  have hbuses : (modifyLine (if ft = .opn then modifyLine s.grid lineId openLine else s.grid)
      lineId fun l => applyFault l ft (max 0 (min 1 pos))).buses = s.grid.buses := by
    by_cases hft : ft = .opn
    · rw [if_pos hft]
      rfl
    · rw [if_neg hft]
      rfl
  have hfrom : (applyFault (if ft = .opn then openLine line else line) ft
      (max 0 (min 1 pos))).fromBusId = line.fromBusId := by
    by_cases hft : ft = .opn
    · rw [if_pos hft]
      rfl
    · rw [if_neg hft]
      rfl
  have hmem : (applyFault (if ft = .opn then openLine line else line) ft
      (max 0 (min 1 pos))).fromBusId ∈
      sortedBusIds (modifyLine (if ft = .opn then modifyLine s.grid lineId openLine
        else s.grid) lineId fun l => applyFault l ft (max 0 (min 1 pos))) := by
    rw [hfrom]
    unfold sortedBusIds busKeys
    rw [hbuses]
    exact ((List.perm_insertionSort _ _).mem_iff).mpr hbus
  obtain ⟨fi, hfi⟩ := busIdxFin_isSome _ _ hmem
  simp only [injectLineFault, hline]
  obtain ⟨c, hc⟩ := calcLine_stores
    { s with
      grid := modifyLine (if ft = .opn then modifyLine s.grid lineId openLine else s.grid)
        lineId fun l => applyFault l ft (max 0 (min 1 pos))
      nextId := s.nextId + 1 }
    { fault_type := ft, location_type := .line, element_id := lineId,
      position := max 0 (min 1 pos), resistance := res, is_active := true,
      detected := false, detected_location := none, nid := s.nextId }
    (applyFault (if ft = .opn then openLine line else line) ft (max 0 (min 1 pos)))
    fi hg2 hfi
  rw [hc]
  refine ⟨_, rfl, rfl, hclamp0, hclamp1, rfl, rfl, rfl, rfl, rfl, ?_, ?_⟩
  · refine ⟨applyFault (if ft = .opn then openLine line else line) ft (max 0 (min 1 pos)),
      ?_, ?_, rfl, rfl, hidem⟩
    · have hl := buildYBus_fst_lines (modifyLine (if ft = .opn then
        modifyLine s.grid lineId openLine else s.grid) lineId
        fun l => applyFault l ft (max 0 (min 1 pos)))
      rw [show ((buildSequenceNetworks (modifyLine (if ft = .opn then
          modifyLine s.grid lineId openLine else s.grid) lineId
          fun l => applyFault l ft (max 0 (min 1 pos)))).1).lines =
        (modifyLine (if ft = .opn then modifyLine s.grid lineId openLine else s.grid)
          lineId fun l => applyFault l ft (max 0 (min 1 pos))).lines from hl]
      exact hg2
    · intro hft
      rw [if_pos hft]
      rfl
  · exact ⟨c, dget_dictSet_self _ _ _⟩

/-- Iterating from the stepped state shifts the iterate index. -/
theorem nrIterate_shift (g : Grid) (Y : ℕ → ℕ → ℂ) (s : PFState) (k : ℕ) :
    nrIterate g Y (nrStep g Y s) k = nrIterate g Y s (k + 1) := by
  induction k with
  | zero => rfl
  | succ k ih =>
    show nrStep g Y (nrIterate g Y (nrStep g Y s) k) = nrStep g Y (nrIterate g Y s (k + 1))
    rw [ih]

/-- When no iterate's mismatch falls below tolerance, the loop runs its
fuel out and returns the last iterate with converged = false. -/
theorem nrLoop_never_converges (g : Grid) (Y : ℕ → ℕ → ℂ) (fuel : ℕ) :
    ∀ (s : PFState) (iter : ℕ) (mPrev : ℝ),
    (∀ k, k < fuel →
      ¬ maxAbsList (mismatchList g Y (nrIterate g Y s k).vMag (nrIterate g Y s k).vAng) <
        tol) →
    (nrLoop g Y fuel iter s mPrev).1 = nrIterate g Y s fuel ∧
    (nrLoop g Y fuel iter s mPrev).2.1 = false := by
  induction fuel with
  | zero => exact fun s iter mPrev _ => ⟨rfl, rfl⟩
  | succ fuel ih =>
    intro s iter mPrev h
    have h0 := h 0 (Nat.succ_pos fuel)
    simp only [nrIterate] at h0
    have hrest : ∀ k, k < fuel →
        ¬ maxAbsList (mismatchList g Y (nrIterate g Y (nrStep g Y s) k).vMag
          (nrIterate g Y (nrStep g Y s) k).vAng) < tol := by
      intro k hk
      rw [nrIterate_shift]
      exact h (k + 1) (Nat.succ_lt_succ hk)
    have hr := ih (nrStep g Y s) (iter + 1)
      (maxAbsList (mismatchList g Y s.vMag s.vAng)) hrest
    unfold nrLoop
    simp only
    rw [if_neg h0]
    exact ⟨hr.1.trans (nrIterate_shift g Y s fuel), hr.2⟩

/-- C3: when no iterate within the 50-iteration cap brings the maximum
absolute mismatch below tolerance, solve still returns (converged =
false), the last iterate's magnitudes and angles are written back into
the buses, and the line flows are updated from that last iterate. -/
theorem C3_nonconvergence (g : Grid)
    (h : ∀ k, k < 50 → ¬ pfMismatchAt g k < tol) :
    (pfSolve g).2.1 = false ∧
    (pfSolve g).1.buses = writeBack (buildYBus g).1 (pfIterateOf g 50) ∧
    (pfSolve g).1.lines = lineFlows (buildYBus g).1 (pfIterateOf g 50) := by
  have hl := nrLoop_never_converges (buildYBus g).1 (buildYBus g).2 50
    (initState (buildYBus g).1) 0 0 (fun k hk => h k hk)
  refine ⟨?_, ?_, ?_⟩
  · show (nrLoop (buildYBus g).1 (buildYBus g).2 50 0 (initState (buildYBus g).1) 0).2.1 =
      false
    exact hl.2
  · show writeBack (buildYBus g).1
      (nrLoop (buildYBus g).1 (buildYBus g).2 50 0 (initState (buildYBus g).1) 0).1 =
      writeBack (buildYBus g).1 (pfIterateOf g 50)
    rw [hl.1]
    rfl
  · show lineFlows (buildYBus g).1
      (nrLoop (buildYBus g).1 (buildYBus g).2 50 0 (initState (buildYBus g).1) 0).1 =
      lineFlows (buildYBus g).1 (pfIterateOf g 50)
    rw [hl.1]
    rfl

/-- With a zero Y-bus every computed active injection vanishes. -/
theorem pCalc_zero (n : ℕ) (vm va : ℕ → ℝ) (i : ℕ) :
    pCalc (fun _ _ => 0) n vm va i = 0 := by
  unfold pCalc
  simp

/-- With a zero Y-bus every computed reactive injection vanishes. -/
theorem qCalc_zero (n : ℕ) (vm va : ℕ → ℝ) (i : ℕ) :
    qCalc (fun _ _ => 0) n vm va i = 0 := by
  unfold qCalc
  simp

/-- On the one-bus load grid the mismatch vector is always [-1, 0]. -/
theorem solo_mismatchList (vm va : ℕ → ℝ) :
    mismatchList (buildYBus soloGrid).1 (fun _ _ => 0) vm va = [-1, 0] := by
  unfold mismatchList
  rw [show nonSlackList (buildYBus soloGrid).1 = [0] from rfl,
    show pqIdxList (buildYBus soloGrid).1 = [0] from rfl,
    show nBuses (buildYBus soloGrid).1 = 1 from rfl]
  simp only [List.map_cons, List.map_nil, List.cons_append, List.nil_append]
  rw [pCalc_zero, qCalc_zero]
  unfold pSpec qSpec
  rw [show busAt (buildYBus soloGrid).1 0 = some soloBus from rfl]
  simp only
  unfold pNet qNet
  rw [show soloBus.p_gen = (0 : ℝ) from rfl, show soloBus.p_load = (100 : ℝ) from rfl,
    show soloBus.q_gen = (0 : ℝ) from rfl, show soloBus.q_load = (0 : ℝ) from rfl]
  norm_num

/-- The maximum absolute entry of [-1, 0] is 1. -/
theorem solo_maxAbs : maxAbsList [-1, 0] = 1 := by
  unfold maxAbsList
  simp only [List.foldl_cons, List.foldl_nil]
  rw [abs_neg, abs_one, abs_zero]
  norm_num

/-- On the one-bus load grid the reduced Jacobian is the zero matrix
(for any iterate). -/
theorem solo_jacobian (vm va : ℕ → ℝ) :
    jacobian (buildYBus soloGrid).1 (fun _ _ => 0) vm va = 0 := by
  apply Matrix.ext
  intro r c
  have hget : ∀ k : ℕ, List.getD [0] k 0 = 0 := by
    intro k
    cases k with
    | zero => rfl
    | succ k => rfl
  simp only [jacobian, Matrix.of_apply]
  rw [show nonSlackList (buildYBus soloGrid).1 = [0] from rfl,
    show pqIdxList (buildYBus soloGrid).1 = [0] from rfl,
    show nBuses (buildYBus soloGrid).1 = 1 from rfl]
  simp only [hget, List.length_singleton]
  split_ifs <;>
    simp [j11, j12, j21, j22, pCalc_zero, qCalc_zero]

/-- The modelled linear solve on the zero matrix yields zero
corrections (singular case, least-squares fallback). -/
theorem npSolveOrLstsq_zero {m : ℕ} (hm : 0 < m) (b : Fin m → ℝ) :
    npSolveOrLstsq (0 : Matrix (Fin m) (Fin m) ℝ) b = 0 := by
  unfold npSolveOrLstsq
  have hne : ¬ IsUnit (0 : Matrix (Fin m) (Fin m) ℝ).det := by
    have : Nonempty (Fin m) := ⟨⟨0, hm⟩⟩
    rw [Matrix.det_zero this]
    exact not_isUnit_zero
  rw [if_neg hne]
  simp

/-- Overwriting an array cell with its own value changes nothing. -/
theorem updFun_self (f : ℕ → ℝ) (k : ℕ) : updFun f k (f k) = f := by
  funext x
  unfold updFun
  by_cases h : x = k
  · rw [if_pos h, h]
  · rw [if_neg h]

/-- On the one-bus load grid the Newton step is the identity: the
Jacobian is singular, the least-squares corrections are zero, and the
state is rewritten with its own values. -/
theorem solo_step (s : PFState) : nrStep (buildYBus soloGrid).1 (fun _ _ => 0) s = s := by
  unfold nrStep
  rw [solo_jacobian s.vMag s.vAng]
  rw [npSolveOrLstsq_zero (show 0 < jdim (buildYBus soloGrid).1 by
    rw [show jdim (buildYBus soloGrid).1 = 2 from rfl]
    norm_num)]
  rw [show nonSlackList (buildYBus soloGrid).1 = [0] from rfl,
    show pqIdxList (buildYBus soloGrid).1 = [0] from rfl]
  have hcorr : List.ofFn (0 : Fin (jdim (buildYBus soloGrid).1) → ℝ) = [0, 0] := rfl
  rw [hcorr]
  simp only [List.enum, List.enumFrom, List.foldl_cons, List.foldl_nil,
    List.length_singleton]
  rw [show List.getD [(0 : ℝ), 0] 0 0 = 0 from rfl,
    show List.getD [(0 : ℝ), 0] (1 + 0) 0 = 0 from rfl]
  rw [add_zero, zero_mul, add_zero, updFun_self, updFun_self]

/-- Every iterate on the one-bus load grid equals the start state. -/
theorem solo_iterate (s : PFState) (k : ℕ) :
    nrIterate (buildYBus soloGrid).1 (fun _ _ => 0) s k = s := by
  induction k with
  | zero => rfl
  | succ k ih =>
    show nrStep (buildYBus soloGrid).1 (fun _ _ => 0)
      (nrIterate (buildYBus soloGrid).1 (fun _ _ => 0) s k) = s
    rw [ih, solo_step]

/-- The one-bus load grid's mismatch is 1 at every iterate. -/
theorem solo_pfMismatch (k : ℕ) : pfMismatchAt soloGrid k = 1 := by
  unfold pfMismatchAt pfIterateOf
  rw [show (buildYBus soloGrid).2 = (fun _ _ => 0) from rfl]
  rw [solo_iterate]
  rw [solo_mismatchList, solo_maxAbs]

/-- Witness for C3 on the one-bus load grid, whose mismatch stays 1. -/
theorem C3_nonconvergence_witness :
    (pfSolve soloGrid).2.1 = false ∧
    (pfSolve soloGrid).1.buses = writeBack (buildYBus soloGrid).1 (pfIterateOf soloGrid 50) ∧
    (pfSolve soloGrid).1.lines = lineFlows (buildYBus soloGrid).1 (pfIterateOf soloGrid 50) :=
  C3_nonconvergence soloGrid (by
    intro k hk
    rw [solo_pfMismatch k]
    unfold tol
    norm_num)

/-- Witness for C8: an SLG fault at position 2 (clamped to 1) on the
demo grid's line 0. -/
theorem C8_inject_line_fault_witness :
    ∃ f : Fault,
      (injectLineFault demoSim 0 FaultType.slg 2 0).2 = some f ∧
      f.position = max 0 (min 1 2) ∧ 0 ≤ f.position ∧ f.position ≤ 1 ∧
      f.fault_type = FaultType.slg ∧ f.location_type = .line ∧ f.element_id = 0 ∧
      f.resistance = 0 ∧
      (injectLineFault demoSim 0 FaultType.slg 2 0).1.activeFaults =
        demoSim.activeFaults ++ [f] ∧
      (∃ l', dget (injectLineFault demoSim 0 FaultType.slg 2 0).1.grid.lines 0 = some l' ∧
        (FaultType.slg = .opn → l'.is_closed = false) ∧
        l'.is_faulted = true ∧ l'.fault_type = some FaultType.slg ∧
        l'.fault_location = max 0 (min 1 2)) ∧
      ∃ c, dget (injectLineFault demoSim 0 FaultType.slg 2 0).1.faultCurrents f.nid =
        some c :=
  C8_inject_line_fault demoSim 0 FaultType.slg 2 0 demoLine rfl (by decide)

end GridSim
